import Mathlib

/-!
Verification development for the MLOps_AWS RAG application.

The core under study is the retrieval subsystem (embedding a query,
similarity search against a passage store, ranked scored results) plus
its consumers: the retrieval HTTP controller, the context formatter and
the LLM-call wrapper in `generation_service.py`.

The repository ships tests and callers for `retrieval_service.py` and
`embedding_service.py`, but those two service modules themselves are not
present in the source tree; following the spec (sections 3, 4, 7, 8),
the definitions below marked "Modelled from the spec" reconstruct their
contract.  Everything else is translated directly from the Python source
(`generation_service.py`, `controllers/retrieval.py`,
`models/document.py`, `tests/conftest.py`).
-/

/-- A persisted passage record, as in the `papers` table created by
`tests/conftest.py` (`id SERIAL PRIMARY KEY, title TEXT, summary TEXT,
chunk TEXT, embedding vector(384)`) and the spec data model
(`PassageRecord`): identifier, title, summary, chunk, embedding.
Embedding components are modelled as rationals. -/
structure PassageRecord where
  id : Int
  title : String
  summary : String
  chunk : String
  embedding : List ℚ
deriving Repr, DecidableEq

/-- `RetrievedDocument` from `models/document.py`: `id : Optional[int]`,
`title`, `summary`, `chunk`, `embedding : Optional[List[float]]`, plus
`similarity_score : float`. -/
structure RetrievedDocument where
  id : Option Int
  title : String
  summary : String
  chunk : String
  embedding : Option (List ℚ)
  similarity_score : ℚ
deriving Repr, DecidableEq

/-- A row returned by the store's similarity query, per the spec's
passage-store boundary: `(id, title, summary, chunk,
similarity_score_or_distance)`. -/
structure Row where
  id : Int
  title : String
  summary : String
  chunk : String
  score : ℚ
deriving Repr, DecidableEq

/-- Modelled from the spec: the state of the passage store reachable
through `db_config`.  `reachable` is false when opening a connection
fails (spec: "fails with `ConnectionError` if unreachable");
`queryFails` is true when the similarity query itself throws (spec
error taxonomy: "`ConnectionError` (store unreachable or query
execution failed)"); `records` are the persisted passages. -/
structure Store where
  reachable : Bool
  queryFails : Bool
  records : List PassageRecord
deriving Repr, DecidableEq

/-- Modelled from the spec: the embedding-model boundary, "an inference
operation (text → fixed-length vector)" with a configured output
dimensionality (`dim`, 384 for the deployed paraphrase-MiniLM-L6-v2
model per `tests/conftest.py`). -/
structure EmbeddingModel where
  dim : Nat
  encode : String → List ℚ

/-- The typed error taxonomy of the spec that the retrieval path can
raise: `ConnectionError` for an unreachable store or a failed query. -/
inductive RetrievalError where
  | connectionError
deriving Repr, DecidableEq

/-- Connection lifecycle events, used to record acquisition and release
of the scoped store connection on each execution path. -/
inductive ConnEvent where
  | opened
  | closed
deriving Repr, DecidableEq

/-- The observable outcome of one retrieval call: its result, the store
contents after the call, and the trace of connection events. -/
structure RetrieveOutcome where
  result : Except RetrievalError (List RetrievedDocument)
  finalStore : Store
  connEvents : List ConnEvent
deriving Repr

/-- Modelled from the spec: the distance metric of the similarity
search ("cosine distance or equivalent"), here squared Euclidean
distance between the stored embedding and the query vector — a concrete
pick of the spec's "one embedding-distance convention". -/
def sqDist (u v : List ℚ) : ℚ :=
  (List.zipWith (fun a b => (a - b) * (a - b)) u v).sum

/-- Modelled from the spec: "a smaller distance should map to a larger
`similarity_score`" — the score is the negated distance. -/
def simScore (u v : List ℚ) : ℚ := - sqDist u v

/-- Modelled from the spec: score one passage record against the query
vector, producing a similarity-query row. -/
def scoreRow (qv : List ℚ) (r : PassageRecord) : Row :=
  { id := r.id, title := r.title, summary := r.summary, chunk := r.chunk,
    score := simScore r.embedding qv }

/-- The ranking relation of the similarity search: higher
`similarity_score` first; on equal scores, ascending identifier (spec:
"ties broken by ascending identifier for determinism"). -/
def rowLE (a b : Row) : Prop :=
  b.score < a.score ∨ (a.score = b.score ∧ a.id ≤ b.id)

instance : DecidableRel rowLE := fun a b => by
  unfold rowLE
  infer_instance

instance : IsTotal Row rowLE := by
  constructor
  intro a b
  rcases lt_trichotomy a.score b.score with h | h | h
  · exact Or.inr (Or.inl h)
  · rcases Int.le_total a.id b.id with hid | hid
    · exact Or.inl (Or.inr ⟨h, hid⟩)
    · exact Or.inr (Or.inr ⟨h.symm, hid⟩)
  · exact Or.inl (Or.inl h)

instance : IsTrans Row rowLE := by
  constructor
  intro a b c hab hbc
  rcases hab with h1 | ⟨h1, i1⟩ <;> rcases hbc with h2 | ⟨h2, i2⟩
  · exact Or.inl (h2.trans h1)
  · exact Or.inl (h2 ▸ h1)
  · exact Or.inl (h1 ▸ h2)
  · exact Or.inr ⟨h1.trans h2, i1.trans i2⟩

/-- Modelled from the spec: rank all rows by the similarity ordering
(step 3 of `retrieve`: "rank all `PassageRecord`s … ties broken by
ascending identifier"). -/
def rankRows (rows : List Row) : List Row :=
  List.insertionSort rowLE rows

/-- Modelled from the spec: the store's similarity-query capability —
score all records against the query vector, rank them, and return the
top `k` rows; raises `ConnectionError` when query execution fails. -/
def similaritySearch (qv : List ℚ) (k : Nat) (s : Store) :
    Except RetrievalError (List Row) :=
  if s.queryFails then Except.error RetrievalError.connectionError
  else Except.ok ((rankRows (s.records.map (scoreRow qv))).take k)

/-- Step 4 of the spec's `retrieve`: map each matched row to a result
object (a `RetrievedDocument`, as the controller and tests consume). -/
def toRetrievedDocument (row : Row) : RetrievedDocument :=
  { id := some row.id, title := row.title, summary := row.summary,
    chunk := row.chunk, embedding := none, similarity_score := row.score }

/-- Modelled from the spec: `retrieve_top_k_chunks` of the missing
`server/src/services/retrieval_service.py`.  Steps per spec 4.2:
embed the query, open a connection (`ConnectionError` if unreachable,
no connection acquired), run the similarity search, map rows to
results, and release the connection unconditionally — the connection
trace is `[opened, closed]` on both the success path and the
query-failure path (scoped acquisition with guaranteed release).  The
store is read-only to the call, so `finalStore` is the input store. -/
def retrieve_top_k_chunks (m : EmbeddingModel) (query : String) (k : Nat)
    (s : Store) : RetrieveOutcome :=
  let qv := m.encode query
  if s.reachable then
    match similaritySearch qv k s with
    | Except.error e =>
        { result := Except.error e, finalStore := s,
          connEvents := [ConnEvent.opened, ConnEvent.closed] }
    | Except.ok rows =>
        { result := Except.ok (rows.map toRetrievedDocument), finalStore := s,
          connEvents := [ConnEvent.opened, ConnEvent.closed] }
  else
    { result := Except.error RetrievalError.connectionError, finalStore := s,
      connEvents := [] }

/-- Modelled from the spec: `get_embedding` of the missing
`server/src/services/embedding_service.py` — per its test, it returns
`model.encode(text)` for the module-level sentence-embedding model. -/
def get_embedding (m : EmbeddingModel) (text : String) : List ℚ :=
  m.encode text

/-- The spec's data-model invariant: "embedding length is constant
across all records and equal to the embedder's output dimensionality". -/
def storeWellFormed (m : EmbeddingModel) (s : Store) : Prop :=
  ∀ r ∈ s.records, r.embedding.length = m.dim

/-- Token-usage data of an OpenAI chat-completion response, as read by
`call_llm` in `generation_service.py`: `usage.total_tokens` and
`usage.completion_tokens`. -/
structure ApiUsage where
  total_tokens : ℚ
  completion_tokens : ℚ
deriving Repr, DecidableEq

/-- The part of an OpenAI chat-completion response that `call_llm`
reads: `choices[0].message.content` and the optional `usage` object. -/
structure ApiResponse where
  content : Option String
  usage : Option ApiUsage
deriving Repr, DecidableEq

/-- The dictionary `call_llm` returns: keys `response` and
`response_tokens_per_second` (matching `GenerationResponse` in
`models/document.py`). -/
structure LLMResult where
  response : Option String
  response_tokens_per_second : Option ℚ
deriving Repr, DecidableEq

/-- `call_llm` from `generation_service.py`.  The OpenAI client call is
the boundary: `api` is either the API response or the message of the
exception the call raised (this also covers the `ValueError` from
`get_default_client`, raised inside the same `try`).  On success it
builds the response dictionary (tokens-per-second from `usage` when
present); on any exception the `except Exception` clause returns a
normal dictionary carrying an apology message — it does not re-raise,
so the return type's `Except.error` is never produced. -/
def call_llm (api : Except String ApiResponse) : Except String LLMResult :=
  match api with
  | Except.ok r =>
      Except.ok
        { response := r.content,
          response_tokens_per_second :=
            r.usage.map (fun u => u.total_tokens / u.completion_tokens) }
  | Except.error e =>
      Except.ok
        { response := some
            ("I\x27m sorry, but I encountered an error while generating a response: "
              ++ e),
          response_tokens_per_second := none }

/-- Python exceptions observable at the retrieval endpoint: FastAPI's
`HTTPException(status_code, detail)` (a subclass of `Exception`), and
any other exception carrying its `str(e)` rendering. -/
inductive PyExc where
  | httpException (status : Nat) (detail : String)
  | other (msg : String)
deriving Repr, DecidableEq

/-- Python's `str(e)` for the exceptions above; Starlette's
`HTTPException.__str__` renders as `"{status_code}: {detail}"`. -/
def pyStr : PyExc → String
  | PyExc.httpException s d => toString s ++ ": " ++ d
  | PyExc.other m => m

/-- `retrieve_top_k_chunks_endpoint` from `controllers/retrieval.py`.
`call` is the outcome of `retrieve_top_k_chunks(query, top_k,
db_config)` — either the chunk list or the exception it raised.  The
`try` body raises `HTTPException(404, "No chunks found.")` on an empty
list; the surrounding `except Exception` catches every exception
(including that `HTTPException`) and re-raises
`HTTPException(500, "Error retrieving chunks: " + str(e))`. -/
def retrieve_top_k_chunks_endpoint
    (call : Except PyExc (List RetrievedDocument)) :
    Except PyExc (List RetrievedDocument) :=
  let body : Except PyExc (List RetrievedDocument) :=
    match call with
    | Except.error e => Except.error e
    | Except.ok chunks =>
        if chunks.isEmpty then
          Except.error (PyExc.httpException 404 "No chunks found.")
        else Except.ok chunks
  match body with
  | Except.ok v => Except.ok v
  | Except.error e =>
      Except.error
        (PyExc.httpException 500 ("Error retrieving chunks: " ++ pyStr e))

/-- A chunk as consumed by `format_context_from_chunks`: the function
accesses its argument with `chunk.get("title", "Untitled")` and
`chunk.get("chunk", "")`, i.e. a dictionary whose `title` and `chunk`
keys may be absent. -/
structure ChunkDict where
  title : Option String
  chunk : Option String
deriving Repr, DecidableEq

/-- `format_context_from_chunks` from `generation_service.py`: the
empty list yields `"No relevant context available."`; otherwise each
chunk is rendered as `f"Document {i} - {title}:\n{content}\n"` with `i`
counting from 1 (`enumerate(chunks, 1)`), and the renderings are joined
with `"\n"`. -/
def format_context_from_chunks (chunks : List ChunkDict) : String :=
  if chunks.isEmpty then "No relevant context available."
  else
    let formatted := (List.enumFrom 1 chunks).map (fun p =>
      "Document " ++ toString p.1 ++ " - " ++ p.2.title.getD "Untitled"
        ++ ":\n" ++ p.2.chunk.getD "" ++ "\n")
    String.intercalate "\n" formatted

/-- The claim's formula for the context blocks: for a list starting at
index `i`, the block `"Document i - title:\n(content)\n"` for each
chunk in order, with `title` defaulting to `"Untitled"` and content to
the empty string. -/
def contextBlocksFrom : Nat → List ChunkDict → List String
  | _, [] => []
  | i, c :: cs =>
      ("Document " ++ toString i ++ " - " ++ c.title.getD "Untitled"
        ++ ":\n" ++ c.chunk.getD "" ++ "\n") :: contextBlocksFrom (i + 1) cs

/-- The claim's wording of `format_context_from_chunks`, stated
independently of the source's `enumerate`-based loop: empty input gives
the fixed message, non-empty input the newline-join of the blocks
numbered from 1. -/
def format_context_from_chunks_spec (chunks : List ChunkDict) : String :=
  if chunks = [] then "No relevant context available."
  else String.intercalate "\n" (contextBlocksFrom 1 chunks)

/-- The ranking property claimed for retrieval output: similarity
scores descending, and on equal scores ascending identifiers. -/
def retrievedRanked (l : List RetrievedDocument) : Prop :=
  l.Pairwise (fun a b =>
    b.similarity_score < a.similarity_score ∨
      (a.similarity_score = b.similarity_score ∧
        ∃ ia ib, a.id = some ia ∧ b.id = some ib ∧ ia ≤ ib))

/-- A concrete two-dimensional embedding model used to instantiate the
retrieval theorems (the 2-D illustration of spec section 8). -/
def modelW : EmbeddingModel :=
  { dim := 2, encode := fun _ => [1, 0] }

/-- Concrete passage records mirroring the spec section 8 scenario. -/
def recA : PassageRecord :=
  { id := 1, title := "A", summary := "sA", chunk := "A", embedding := [1, 0] }

/-- Second concrete passage record. -/
def recB : PassageRecord :=
  { id := 2, title := "B", summary := "sB", chunk := "B", embedding := [0, 1] }

/-- Third concrete passage record. -/
def recC : PassageRecord :=
  { id := 3, title := "C", summary := "sC", chunk := "C",
    embedding := [7/10, 7/10] }

/-- A healthy concrete store with three records. -/
def storeW : Store :=
  { reachable := true, queryFails := false, records := [recA, recB, recC] }

/-- A healthy concrete store with no records. -/
def storeEmptyW : Store :=
  { reachable := true, queryFails := false, records := [] }

/-- A concrete unreachable store. -/
def storeUnreachableW : Store :=
  { reachable := false, queryFails := false, records := [recA] }

/-- A concrete 384-dimensional embedding model matching the deployed
paraphrase-MiniLM-L6-v2 configuration of `tests/conftest.py`. -/
def model384 : EmbeddingModel :=
  { dim := 384, encode := fun _ => List.replicate 384 (1/10 : ℚ) }

/-- A concrete store whose single record carries a 384-dimensional
embedding, as inserted by `tests/conftest.py`. -/
def store384 : Store :=
  { reachable := true, queryFails := false,
    records := [{ id := 1, title := "Test Paper 1",
                  summary := "Summary of test paper 1",
                  chunk := "Perovskite materials are used in solar cells.",
                  embedding := List.replicate 384 (1/10 : ℚ) }] }

lemma enumFrom_map_block (i : Nat) (cs : List ChunkDict) :
    (List.enumFrom i cs).map (fun p =>
      "Document " ++ toString p.1 ++ " - " ++ p.2.title.getD "Untitled"
        ++ ":\n" ++ p.2.chunk.getD "" ++ "\n") = contextBlocksFrom i cs := by
  induction cs generalizing i with
  | nil => rfl
  | cons c cs ih => simp [List.enumFrom, contextBlocksFrom, ih]

/-- C10: `format_context_from_chunks` returns exactly
`"No relevant context available."` on the empty list, and otherwise the
newline-joined blocks `"Document i - title:\n(content)\n"` numbered
from 1, with title defaulting to `"Untitled"` and content to `""`. -/
theorem format_context_from_chunks_correct (chunks : List ChunkDict) :
    format_context_from_chunks chunks = format_context_from_chunks_spec chunks := by
  unfold format_context_from_chunks format_context_from_chunks_spec
  cases chunks with
  | nil => rfl
  | cons c cs => simp [enumFrom_map_block, contextBlocksFrom]

/-- C8: `call_llm` does not propagate an exception from the model
layer; its `except Exception` clause converts every such exception into
a normally returned dictionary whose `response` is an apology message —
a fabricated successful result, contradicting both the spec's
propagation policy and the function's own docstring. -/
theorem call_llm_swallows_exceptions (e : String) :
    call_llm (Except.error e) = Except.ok
      { response := some
          ("I\x27m sorry, but I encountered an error while generating a response: "
            ++ e),
        response_tokens_per_second := none } := rfl

/-- C5: against an unreachable store, `retrieve_top_k_chunks` raises
`ConnectionError`, leaves the store unchanged, and never acquires a
connection (so there is no partial mutation and no internal retry). -/
theorem retrieve_top_k_unreachable_raises (m : EmbeddingModel) (q : String)
    (k : Nat) (s : Store) (h : s.reachable = false) :
    (retrieve_top_k_chunks m q k s).result
        = Except.error RetrievalError.connectionError ∧
    (retrieve_top_k_chunks m q k s).finalStore = s ∧
    (retrieve_top_k_chunks m q k s).connEvents = [] := by
  unfold retrieve_top_k_chunks
  rw [h]
  simp

theorem retrieve_top_k_unreachable_raises_witness :
    storeUnreachableW.reachable = false ∧
    ((retrieve_top_k_chunks modelW "q" 5 storeUnreachableW).result
        = Except.error RetrievalError.connectionError ∧
      (retrieve_top_k_chunks modelW "q" 5 storeUnreachableW).finalStore
        = storeUnreachableW ∧
      (retrieve_top_k_chunks modelW "q" 5 storeUnreachableW).connEvents = []) :=
  ⟨rfl, retrieve_top_k_unreachable_raises modelW "q" 5 storeUnreachableW rfl⟩

/-- C7: on every execution path of `retrieve_top_k_chunks` — success,
store unreachable, and the similarity query itself throwing — every
acquired connection is released before the call exits: the connection
trace holds as many releases as acquisitions. -/
theorem retrieve_top_k_releases_connection (m : EmbeddingModel) (q : String)
    (k : Nat) (s : Store) :
    ((retrieve_top_k_chunks m q k s).connEvents.count ConnEvent.opened)
      = ((retrieve_top_k_chunks m q k s).connEvents.count ConnEvent.closed) := by
  unfold retrieve_top_k_chunks
  by_cases h : s.reachable = true
  · rw [if_pos h]
    cases similaritySearch (m.encode q) k s with
    | error e => rfl
    | ok rows => rfl
  · rw [if_neg h]
    rfl

/-- C9: when `retrieve_top_k_chunks` returns an empty list, the
endpoint's inner `HTTPException(404, "No chunks found.")` is caught by
its own `except Exception` handler and re-raised with status 500;
moreover no call ever surfaces a 404 status or an empty list to the
caller. -/
theorem endpoint_maps_empty_to_500
    (call : Except PyExc (List RetrievedDocument))
    (h : call = Except.ok []) :
    (∃ d, retrieve_top_k_chunks_endpoint call
        = Except.error (PyExc.httpException 500 d)) ∧
    (∀ c : Except PyExc (List RetrievedDocument), ∀ d,
        retrieve_top_k_chunks_endpoint c
          ≠ Except.error (PyExc.httpException 404 d)) ∧
    (∀ c : Except PyExc (List RetrievedDocument),
        retrieve_top_k_chunks_endpoint c ≠ Except.ok []) := by
  refine ⟨⟨"Error retrieving chunks: 404: No chunks found.", by rw [h]; rfl⟩, ?_, ?_⟩
  · intro c d
    cases c with
    | error e => simp [retrieve_top_k_chunks_endpoint]
    | ok chunks =>
      by_cases hc : chunks.isEmpty
      · simp [retrieve_top_k_chunks_endpoint, hc]
      · simp [retrieve_top_k_chunks_endpoint, hc]
  · intro c
    cases c with
    | error e => simp [retrieve_top_k_chunks_endpoint]
    | ok chunks =>
      by_cases hc : chunks.isEmpty
      · simp [retrieve_top_k_chunks_endpoint, hc]
      · simp [retrieve_top_k_chunks_endpoint, hc]
        intro heq
        rw [heq] at hc
        simp at hc

theorem endpoint_maps_empty_to_500_witness :
    (Except.ok [] : Except PyExc (List RetrievedDocument)) = Except.ok [] ∧
    (∃ d, retrieve_top_k_chunks_endpoint (Except.ok [])
        = Except.error (PyExc.httpException 500 d)) :=
  ⟨rfl, (endpoint_maps_empty_to_500 (Except.ok []) rfl).1⟩

/-- C6: one `retrieve_top_k_chunks` call leaves the store unchanged,
so a second call against the store state left by the first returns the
very same outcome — retrieval is idempotent and keeps no cross-call
state. -/
theorem retrieve_top_k_idempotent (m : EmbeddingModel) (q : String)
    (k : Nat) (s : Store) (hk : 0 < k) :
    (retrieve_top_k_chunks m q k s).finalStore = s ∧
    retrieve_top_k_chunks m q k ((retrieve_top_k_chunks m q k s).finalStore)
      = retrieve_top_k_chunks m q k s := by
  have hfs : (retrieve_top_k_chunks m q k s).finalStore = s := by
    unfold retrieve_top_k_chunks
    by_cases h : s.reachable = true
    · rw [if_pos h]
      cases similaritySearch (m.encode q) k s with
      | error e => rfl
      | ok rows => rfl
    · rw [if_neg h]
  exact ⟨hfs, by rw [hfs]⟩

theorem retrieve_top_k_idempotent_witness :
    0 < 2 ∧
    ((retrieve_top_k_chunks modelW "q" 2 storeW).finalStore = storeW ∧
      retrieve_top_k_chunks modelW "q" 2
          ((retrieve_top_k_chunks modelW "q" 2 storeW).finalStore)
        = retrieve_top_k_chunks modelW "q" 2 storeW) :=
  ⟨by decide, retrieve_top_k_idempotent modelW "q" 2 storeW (by decide)⟩

/-- C4: against a reachable store with zero records (and a healthy
query path), `retrieve_top_k_chunks` returns the successfully empty
list rather than an error. -/
theorem retrieve_top_k_empty_store_ok (m : EmbeddingModel) (q : String)
    (k : Nat) (s : Store) (hr : s.reachable = true)
    (hq : s.queryFails = false) (hrec : s.records = []) (hk : 0 < k) :
    (retrieve_top_k_chunks m q k s).result = Except.ok [] := by
  unfold retrieve_top_k_chunks similaritySearch
  rw [hr, hq, hrec]
  simp [rankRows]

theorem retrieve_top_k_empty_store_ok_witness :
    storeEmptyW.reachable = true ∧ storeEmptyW.queryFails = false ∧
    storeEmptyW.records = [] ∧ 0 < 5 ∧
    (retrieve_top_k_chunks modelW "q" 5 storeEmptyW).result = Except.ok [] :=
  ⟨rfl, rfl, rfl, by decide,
    retrieve_top_k_empty_store_ok modelW "q" 5 storeEmptyW rfl rfl rfl (by decide)⟩

/-- C1: for any query, any positive `k`, and a healthy store with `N`
records, `retrieve_top_k_chunks` returns exactly `min k N` scored
results; when `N ≤ k` the result is a permutation of all `N` records'
scored images, so in particular a store with fewer than `k` records
yields all of them without error. -/
theorem retrieve_top_k_returns_min_k_N (m : EmbeddingModel) (q : String)
    (k : Nat) (s : Store) (hr : s.reachable = true)
    (hq : s.queryFails = false) (hk : 0 < k) :
    ∃ rs, (retrieve_top_k_chunks m q k s).result = Except.ok rs ∧
      rs.length = min k s.records.length ∧
      (s.records.length ≤ k →
        rs.Perm (s.records.map
          (fun r => toRetrievedDocument (scoreRow (m.encode q) r)))) := by
  refine ⟨((rankRows (s.records.map (scoreRow (m.encode q)))).take k).map
      toRetrievedDocument, ?_, ?_, ?_⟩
  · unfold retrieve_top_k_chunks similaritySearch
    rw [hr, hq]
    simp
  · simp [rankRows, List.length_insertionSort]
  · intro hle
    have hlen : (rankRows (s.records.map (scoreRow (m.encode q)))).length ≤ k := by
      simp [rankRows, List.length_insertionSort]
      exact hle
    rw [List.take_of_length_le hlen]
    have hperm := (List.perm_insertionSort rowLE
      (s.records.map (scoreRow (m.encode q)))).map toRetrievedDocument
    rw [rankRows]
    rw [List.map_map] at hperm
    exact hperm

theorem retrieve_top_k_returns_min_k_N_witness :
    storeW.reachable = true ∧ storeW.queryFails = false ∧ 0 < 5 ∧
    ∃ rs, (retrieve_top_k_chunks modelW "q" 5 storeW).result = Except.ok rs ∧
      rs.length = min 5 storeW.records.length ∧
      (storeW.records.length ≤ 5 →
        rs.Perm (storeW.records.map
          (fun r => toRetrievedDocument (scoreRow (modelW.encode "q") r)))) :=
  ⟨rfl, rfl, by decide,
    retrieve_top_k_returns_min_k_N modelW "q" 5 storeW rfl rfl (by decide)⟩

/-- C2: every successful result list of `retrieve_top_k_chunks` is
sorted by `similarity_score` descending, with ties on equal scores
broken by ascending identifier. -/
theorem retrieve_top_k_results_sorted (m : EmbeddingModel) (q : String)
    (k : Nat) (s : Store) (hr : s.reachable = true)
    (hq : s.queryFails = false) (hk : 0 < k)
    (rs : List RetrievedDocument)
    (h : (retrieve_top_k_chunks m q k s).result = Except.ok rs) :
    retrievedRanked rs := by
  unfold retrieve_top_k_chunks similaritySearch at h
  rw [hr, hq] at h
  simp at h
  subst h
  unfold retrievedRanked rankRows
  refine List.Pairwise.sublist (List.take_sublist _ _) ?_
  rw [List.pairwise_map]
  refine List.Pairwise.imp ?_ (List.sorted_insertionSort rowLE _)
  intro a b hab
  rcases hab with h1 | ⟨h1, h2⟩
  · exact Or.inl h1
  · exact Or.inr ⟨h1, a.id, b.id, rfl, rfl, h2⟩

theorem retrieve_top_k_results_sorted_witness :
    storeW.reachable = true ∧ storeW.queryFails = false ∧ 0 < 2 ∧
    retrievedRanked
      (((rankRows (storeW.records.map (scoreRow (modelW.encode "q")))).take 2).map
        toRetrievedDocument) :=
  ⟨rfl, rfl, by decide,
    retrieve_top_k_results_sorted modelW "q" 2 storeW rfl rfl (by decide) _ rfl⟩

/-- C3: for a non-empty input string, `get_embedding` returns a vector
of the configured model's fixed output dimensionality, and under the
store well-formedness invariant every stored passage embedding has that
same length. -/
theorem get_embedding_fixed_dim (m : EmbeddingModel) (text : String)
    (s : Store) (hm : ∀ t, (m.encode t).length = m.dim) (ht : text ≠ "")
    (hs : storeWellFormed m s) :
    (get_embedding m text).length = m.dim ∧
    ∀ r ∈ s.records, r.embedding.length = (get_embedding m text).length := by
  constructor
  · exact hm text
  · intro r hr
    rw [get_embedding, hm text]
    exact hs r hr

lemma model384_encode_len : ∀ t, (model384.encode t).length = model384.dim := by
  intro t
  simp only [model384]
  exact List.length_replicate 384 _

lemma store384_wellFormed : storeWellFormed model384 store384 := by
  intro r hr
  simp only [store384, List.mem_singleton] at hr
  subst hr
  simp only [model384]
  exact List.length_replicate 384 _

theorem get_embedding_fixed_dim_witness :
    (∀ t, (model384.encode t).length = model384.dim) ∧
    ("perovskite" ≠ "") ∧ storeWellFormed model384 store384 ∧
    ((get_embedding model384 "perovskite").length = model384.dim ∧
      ∀ r ∈ store384.records,
        r.embedding.length = (get_embedding model384 "perovskite").length) :=
  ⟨model384_encode_len, by decide, store384_wellFormed,
    get_embedding_fixed_dim model384 "perovskite" store384
      model384_encode_len (by decide) store384_wellFormed⟩
